import Mathlib

/-!
Shallow embedding of `src/clever/src/simple_offboard.cpp` (simplified copter
control in OFFBOARD mode).  Machine floating-point values are modelled by real
numbers extended with the IEEE special values NaN and the two infinities
(type `EF` below); this is needed because the source relies on IEEE division
semantics (`x / 0.0`, `std::min` with NaN) in `getNavigateSetpoint`, and on
NaN / infinity encodings of the `yaw` field.  Rounding error is not modelled:
every finite float is represented by an exact real.
-/

/-- Extended float: a real number, NaN, or one of the two infinities.
No negative zero is modelled (the source never produces one on the paths
verified here). -/
inductive EF where
  | nan : EF
  | inf : EF
  | ninf : EF
  | fin : ℝ → EF

namespace EF

/-- Strict IEEE `<` comparison as a proposition: any comparison involving
NaN is false. -/
def lt : EF → EF → Prop
  | .fin a, .fin b => a < b
  | .ninf, .fin _ => True
  | .ninf, .inf => True
  | .fin _, .inf => True
  | _, _ => False

noncomputable instance : DecidableRel lt := by
  intro a b
  cases a <;> cases b <;> simp only [lt] <;> infer_instance

/-- IEEE `==` comparison: NaN compares unequal to everything, including
itself. -/
def ieeeEq : EF → EF → Prop
  | .fin a, .fin b => a = b
  | .inf, .inf => True
  | .ninf, .ninf => True
  | _, _ => False

noncomputable instance : DecidableRel ieeeEq := by
  intro a b
  cases a <;> cases b <;> simp only [ieeeEq] <;> infer_instance

/-- Predicate `std::isnan`. -/
def isNaN : EF → Bool
  | .nan => true
  | _ => false

/-- Predicate for `std::isinf(x) && x > 0` (the `+∞` yaw encoding). -/
def isPosInf : EF → Bool
  | .inf => true
  | _ => false

/-- IEEE division.  `a / 0` is `±∞` for `a ≠ 0` and NaN for `a = 0`;
anything over an infinity is `0`; NaN propagates. -/
noncomputable def div : EF → EF → EF
  | .nan, _ => .nan
  | _, .nan => .nan
  | .fin a, .fin b =>
      if b = 0 then (if a = 0 then .nan else if 0 < a then .inf else .ninf)
      else .fin (a / b)
  | .fin _, .inf => .fin 0
  | .fin _, .ninf => .fin 0
  | .inf, .fin b => if b < 0 then .ninf else .inf
  | .ninf, .fin b => if b < 0 then .inf else .ninf
  | .inf, .inf => .nan
  | .inf, .ninf => .nan
  | .ninf, .inf => .nan
  | .ninf, .ninf => .nan

/-- IEEE multiplication.  `0 * ±∞` is NaN; NaN propagates. -/
noncomputable def mul : EF → EF → EF
  | .nan, _ => .nan
  | _, .nan => .nan
  | .fin a, .fin b => .fin (a * b)
  | .fin a, .inf => if a = 0 then .nan else if 0 < a then .inf else .ninf
  | .fin a, .ninf => if a = 0 then .nan else if 0 < a then .ninf else .inf
  | .inf, .fin b => if b = 0 then .nan else if 0 < b then .inf else .ninf
  | .ninf, .fin b => if b = 0 then .nan else if 0 < b then .ninf else .inf
  | .inf, .inf => .inf
  | .inf, .ninf => .ninf
  | .ninf, .inf => .ninf
  | .ninf, .ninf => .inf

/-- IEEE addition.  `∞ + (−∞)` is NaN; NaN propagates. -/
noncomputable def add : EF → EF → EF
  | .nan, _ => .nan
  | _, .nan => .nan
  | .fin a, .fin b => .fin (a + b)
  | .fin _, .inf => .inf
  | .fin _, .ninf => .ninf
  | .inf, .fin _ => .inf
  | .ninf, .fin _ => .ninf
  | .inf, .inf => .inf
  | .ninf, .ninf => .ninf
  | .inf, .ninf => .nan
  | .ninf, .inf => .nan

/-- IEEE subtraction. -/
noncomputable def sub : EF → EF → EF
  | .nan, _ => .nan
  | _, .nan => .nan
  | .fin a, .fin b => .fin (a - b)
  | .fin _, .inf => .ninf
  | .fin _, .ninf => .inf
  | .inf, .fin _ => .inf
  | .ninf, .fin _ => .ninf
  | .inf, .inf => .nan
  | .ninf, .ninf => .nan
  | .inf, .ninf => .inf
  | .ninf, .inf => .ninf

/-- `std::min(a, b)`, which returns `b < a ? b : a`; with a NaN first
argument it returns that NaN, with a NaN second argument it returns `a`. -/
noncomputable def stdMin (a b : EF) : EF := if lt b a then b else a

/-- Collapse to a real number; the non-finite values collapse to `0`.  Used
only where the source stores a float that is finite on every behaviour the
claims quantify over (e.g. copying a commanded body rate into a message). -/
def toReal : EF → ℝ
  | .fin a => a
  | _ => 0

end EF

/-- Position vector with real coordinates (`geometry_msgs::Point` holding
finite values). -/
structure Point3 where
  x : ℝ
  y : ℝ
  z : ℝ

/-- Position vector whose coordinates may be IEEE special values — the type
of the setpoint positions the node emits. -/
structure EFPoint where
  x : EF
  y : EF
  z : EF

/-- Inject an exact point into `EFPoint`. -/
def Point3.toEF (p : Point3) : EFPoint := ⟨.fin p.x, .fin p.y, .fin p.z⟩

/-- Quaternion (`geometry_msgs::Quaternion`). -/
structure Quat where
  x : ℝ
  y : ℝ
  z : ℝ
  w : ℝ

/-- The default-constructed quaternion of `geometry_msgs` (all fields zero). -/
def Quat.zero : Quat := ⟨0, 0, 0, 0⟩

/-- Identity orientation as built by `globalToLocal` (`orientation.w = 1`,
other fields left at zero). -/
def Quat.identity : Quat := ⟨0, 0, 0, 1⟩

/-- Frame names are plain strings. -/
abbrev Frame := String

/-- `geometry_msgs::PoseStamped`: header (frame id and stamp), position and
orientation.  Timestamps are modelled as real-valued seconds. -/
structure PoseS where
  frame_id : Frame
  stamp : ℝ
  pos : Point3
  ori : Quat

/-- `geometry_msgs::Vector3Stamped`. -/
structure Vec3S where
  frame_id : Frame
  stamp : ℝ
  vec : Point3

/-- Source `hypot(x, y, z) = std::sqrt(x*x + y*y + z*z)` (line 315). -/
noncomputable def hypot3 (x y z : ℝ) : ℝ := Real.sqrt (x * x + y * y + z * z)

/-- Source `getDistance(from, to)` (line 320): Euclidean distance between two
points. -/
noncomputable def getDistance (p q : Point3) : ℝ :=
  hypot3 (p.x - q.x) (p.y - q.y) (p.z - q.z)

/-- Source `getNavigateSetpoint` (lines 325-339).  In the source the function
mutates the global `nav_start` (when `wait_armed` it advances its stamp to the
tick time) and writes the interpolated point through an out-parameter; here it
returns the updated `nav_start` paired with the emitted point.  `target` is
`setpoint_position_transformed.pose.position` at the tick.  The arithmetic of
`passed` follows IEEE semantics: when the distance is zero, `time` is zero and
the division `(stamp - nav_start.stamp) / time` produces `±∞` or NaN. -/
noncomputable def getNavigateSetpoint (stamp : ℝ) (speed : ℝ) (wait_armed : Bool)
    (nav_start : PoseS) (target : Point3) : PoseS × EFPoint :=
  -- don't start navigating if we're waiting arming
  let nav_start := if wait_armed then { nav_start with stamp := stamp } else nav_start
  let distance := getDistance nav_start.pos target
  let time := EF.div (.fin distance) (.fin speed)
  let passed := EF.stdMin (EF.div (.fin (stamp - nav_start.stamp)) time) (.fin 1)
  (nav_start,
   ⟨EF.add (.fin nav_start.pos.x) (EF.mul (.fin (target.x - nav_start.pos.x)) passed),
    EF.add (.fin nav_start.pos.y) (EF.mul (.fin (target.y - nav_start.pos.y)) passed),
    EF.add (.fin nav_start.pos.z) (EF.mul (.fin (target.z - nav_start.pos.z)) passed)⟩)

/-- Four-quadrant arctangent (`std::atan2`) on exact reals. -/
noncomputable def atan2 (y x : ℝ) : ℝ :=
  if 0 < x then Real.arctan (y / x)
  else if x < 0 ∧ 0 ≤ y then Real.arctan (y / x) + Real.pi
  else if x < 0 ∧ y < 0 then Real.arctan (y / x) - Real.pi
  else if x = 0 ∧ 0 < y then Real.pi / 2
  else if x = 0 ∧ y < 0 then -(Real.pi / 2)
  else 0

/-- Variant of `atan2` taking extended floats; collapses to `0` on
non-finite arguments (no verified property inspects an orientation built
from a non-finite interpolated position). -/
noncomputable def efAtan2 : EF → EF → ℝ
  | .fin y, .fin x => atan2 y x
  | _, _ => 0

/-- `tf::createQuaternionMsgFromRollPitchYaw` (intrinsic z-y-x Tait-Bryan
angles, half-angle product formula). -/
noncomputable def createQuaternionMsgFromRollPitchYaw (roll pitch yaw : ℝ) : Quat :=
  let sr := Real.sin (roll / 2)
  let cr := Real.cos (roll / 2)
  let sp := Real.sin (pitch / 2)
  let cp := Real.cos (pitch / 2)
  let sy := Real.sin (yaw / 2)
  let cy := Real.cos (yaw / 2)
  ⟨sr * cp * cy - cr * sp * sy,
   cr * sp * cy + sr * cp * sy,
   cr * cp * sy - sr * sp * cy,
   cr * cp * cy + sr * sp * sy⟩

/-- `tf2::getYaw` of a quaternion. -/
noncomputable def getYawOfQuat (q : Quat) : ℝ :=
  atan2 (2 * (q.w * q.z + q.x * q.y)) (1 - 2 * (q.y * q.y + q.z * q.z))

/-- `tf2::getEulerYPR`: yaw, pitch, roll of a quaternion (z-y-x order). -/
noncomputable def getEulerYPR (q : Quat) : ℝ × ℝ × ℝ :=
  (atan2 (2 * (q.w * q.z + q.x * q.y)) (1 - 2 * (q.y * q.y + q.z * q.z)),
   Real.arcsin (2 * (q.w * q.y - q.z * q.x)),
   atan2 (2 * (q.w * q.x + q.y * q.z)) (1 - 2 * (q.x * q.x + q.y * q.y)))

/-- Source enum `setpoint_type_t` (lines 104-112). -/
inductive SetpointType where
  | NONE
  | NAVIGATE
  | NAVIGATE_GLOBAL
  | POSITION
  | VELOCITY
  | ATTITUDE
  | RATES
deriving DecidableEq

/-- Source enum `{ YAW, YAW_RATE, TOWARDS } setpoint_yaw_type` (line 116). -/
inductive YawType where
  | YAW
  | YAW_RATE
  | TOWARDS
deriving DecidableEq

/-- Bit values of `mavros_msgs::PositionTarget` type-mask constants. -/
def IGNORE_PX : ℕ := 1
def IGNORE_PY : ℕ := 2
def IGNORE_PZ : ℕ := 4
def IGNORE_VX : ℕ := 8
def IGNORE_VY : ℕ := 16
def IGNORE_VZ : ℕ := 32
def IGNORE_AFX : ℕ := 64
def IGNORE_AFY : ℕ := 128
def IGNORE_AFZ : ℕ := 256
def IGNORE_YAW : ℕ := 1024
def IGNORE_YAW_RATE : ℕ := 2048

/-- Bit value of `mavros_msgs::AttitudeTarget::IGNORE_ATTITUDE`. -/
def IGNORE_ATTITUDE : ℕ := 128

/-- The persistent `PoseStamped position_msg` global (line 86): its position
holds the possibly non-finite interpolated setpoint. -/
structure PoseMsg where
  frame_id : Frame
  stamp : ℝ
  pos : EFPoint
  ori : Quat

/-- The persistent `PositionTarget position_raw_msg` global (line 87).  Fields
a given publish branch does not assign keep their previous values, exactly as
the C++ global does. -/
structure RawPosMsg where
  frame_id : Frame
  stamp : ℝ
  type_mask : ℕ
  position : EFPoint
  velocity : Point3
  yaw : ℝ
  yaw_rate : EF

/-- Copy a stamped pose into the persistent pose message
(`position_msg = setpoint_position_transformed`). -/
def poseToMsg (p : PoseS) : PoseMsg := ⟨p.frame_id, p.stamp, p.pos.toEF, p.ori⟩

/-- One outgoing message of a publisher tick, tagged by channel. -/
inductive Msg where
  /-- `position_pub` — `mavros/setpoint_position/local` (absolute-yaw pose
  channel). -/
  | posePosition (m : PoseMsg)
  /-- `position_raw_pub` — `mavros/setpoint_raw/local`. -/
  | rawPosition (m : RawPosMsg)
  /-- `attitude_pub` — `mavros/setpoint_attitude/attitude`. -/
  | attitudePose (m : PoseS)
  /-- `thrust_pub` — `mavros/setpoint_attitude/thrust`. -/
  | thrustCmd (stamp : ℝ) (thrust : ℝ)
  /-- `attitude_raw_pub` — `mavros/setpoint_raw/attitude`. -/
  | rawAttitude (stamp : ℝ) (frame_id : Frame) (type_mask : ℕ)
      (body_rate : Point3) (thrust : ℝ)
  /-- broadcast of the `navigate_target` frame relation. -/
  | tfTarget (m : PoseS)

/-- True exactly on the absolute-yaw pose channel. -/
def Msg.isPosePosition : Msg → Bool
  | .posePosition _ => true
  | _ => false

/-- True exactly on the raw-position channel. -/
def Msg.isRawPosition : Msg → Bool
  | .rawPosition _ => true
  | _ => false

/-- The node's mutable state: the C++ globals of lines 84-116 that the
command handlers and the publisher read and write. -/
structure NodeState where
  setpoint_type : SetpointType
  setpoint_yaw_type : YawType
  setpoint_yaw_rate : EF
  nav_start : PoseS
  nav_speed : ℝ
  setpoint_position : PoseS
  setpoint_position_transformed : PoseS
  setpoint_velocity : Vec3S
  setpoint_velocity_transformed : Vec3S
  /-- `thrust_msg.thrust`. -/
  thrust : ℝ
  /-- `rates_msg.twist.angular`. -/
  rates : Point3
  busy : Bool
  wait_armed : Bool
  /-- whether `setpoint_timer` is started. -/
  timer_running : Bool
  position_msg : PoseMsg
  position_raw_msg : RawPosMsg
  /-- orientation of the function-local `static PoseStamped ps` in `serve`
  (line 566): it persists across calls and is only assigned in the
  absolute-yaw branch. -/
  ps_static_ori : Quat

/-- Process-wide parameters (lines 59-75 and their defaults in `main`). -/
structure Params where
  local_frame : Frame
  fcu_frame : Frame
  state_timeout : ℝ
  local_position_timeout : ℝ
  velocity_timeout : ℝ
  global_position_timeout : ℝ
  battery_timeout : ℝ
  transform_timeout : ℝ
  telemetry_transform_timeout : ℝ
  offboard_timeout : ℝ
  land_timeout : ℝ
  arming_timeout : ℝ
  default_speed : ℝ
  land_only_in_offboard : Bool
  /-- the `reference_frames` alias map. -/
  reference_frames : Frame → Option Frame
  /-- `target.child_frame_id`; empty disables the goal broadcast. -/
  target_child_frame : Frame

/-- The collaborators the node consumes, frozen at the instant a handler
runs: latest telemetry (lines 118-124), the transform tree, the geodesic
library, and the autopilot services.  `transformPose`/`transformVec` return
the re-expressed entity or the exception message; `geoInverse` returns the
WGS84 inverse-geodesic (distance, forward azimuth in degrees) of
`GeographicLib::Geodesic::WGS84().Inverse`.  The mode/arm sequencing loops
of `offboardAndArm` (lines 260-313) poll collaborator state that evolves
outside the node, so that call is modelled by its observable outcome:
`none` for success, `some msg` for the thrown error (service-call failure,
OFFBOARD timeout, or arming timeout). -/
structure World where
  now : ℝ
  state_stamp : ℝ
  connected : Bool
  armed : Bool
  mode : String
  local_position : PoseS
  velocity_frame : Frame
  velocity_stamp : ℝ
  velocity_linear : Point3
  velocity_angular : Point3
  global_stamp : ℝ
  global_lat : ℝ
  global_lon : ℝ
  global_alt : ℝ
  battery_stamp : ℝ
  battery_voltage : ℝ
  battery_cells : List ℝ
  /-- result of `waitTransform target source` within the timeout. -/
  canTransform : Frame → Frame → Bool
  transformPose : PoseS → Frame → Except String PoseS
  transformVec : Vec3S → Frame → Except String Vec3S
  /-- `tf_buffer.lookupTransform target source stamp`, translation part. -/
  lookupTransform : Frame → Frame → ℝ → Except String Point3
  geoInverse : ℝ → ℝ → ℝ → ℝ → ℝ × ℝ
  /-- whether `set_mode.call` itself succeeds (for `land`). -/
  setModeCallOk : Bool
  /-- the `mode_sent` flag of the set-mode response (for `land`). -/
  setModeSent : Bool
  offboardAndArmOutcome : Option String

/-- Source `globalToLocal` (lines 341-363): project a (lat, lon) target to a
pose in the local frame using the WGS84 inverse geodesic from the current
global fix.  The `lookupTransform` of the fcu frame can throw; that is the
`Except.error` case. -/
noncomputable def globalToLocal (w : World) (p : Params) (lat lon : ℝ) :
    Except String PoseS :=
  let dist_az := w.geoInverse w.global_lat w.global_lon lat lon
  let azimuth_radians := dist_az.2 * Real.pi / 180
  let x_offset := dist_az.1 * Real.sin azimuth_radians
  let y_offset := dist_az.1 * Real.cos azimuth_radians
  match w.lookupTransform p.local_frame p.fcu_frame w.global_stamp with
  | .error e => .error e
  | .ok tr =>
      .ok { frame_id := p.local_frame
            stamp := w.global_stamp
            pos := ⟨tr.x + x_offset, tr.y + y_offset, 0⟩
            ori := Quat.identity }

/-- Source `publish` (lines 365-466): one publisher tick at time `stamp`.
Returns the updated node state (the transformed shadows, the advanced
`nav_start` while waiting for arming, and the persistent message structs)
together with the list of messages sent, in source order.  The transform
failures inside the tick are swallowed (rate-limited warning in the source)
and the previous transformed values are reused. -/
noncomputable def publish (w : World) (p : Params) (stamp : ℝ) (st : NodeState) :
    NodeState × List Msg :=
  if st.setpoint_type = SetpointType.NONE then (st, [])
  else
    let st := { st with
      position_raw_msg := { st.position_raw_msg with stamp := stamp } }
    -- try: transform position and/or yaw, then velocity; a throw skips the rest
    let st :=
      if st.setpoint_type = SetpointType.NAVIGATE ∨
         st.setpoint_type = SetpointType.NAVIGATE_GLOBAL ∨
         st.setpoint_type = SetpointType.POSITION ∨
         st.setpoint_type = SetpointType.VELOCITY ∨
         st.setpoint_type = SetpointType.ATTITUDE then
        let spos := { st.setpoint_position with stamp := stamp }
        match w.transformPose spos p.local_frame with
        | .ok tp =>
            let st := { st with setpoint_position := spos,
                                setpoint_position_transformed := tp }
            if st.setpoint_type = SetpointType.VELOCITY then
              let svel := { st.setpoint_velocity with stamp := stamp }
              match w.transformVec svel p.local_frame with
              | .ok tv => { st with setpoint_velocity := svel,
                                    setpoint_velocity_transformed := tv }
              | .error _ => { st with setpoint_velocity := svel }
            else st
        | .error _ => { st with setpoint_position := spos }
      else st
    -- goal-frame broadcast
    let bmsgs :=
      if p.target_child_frame ≠ "" ∧
         (st.setpoint_type = SetpointType.NAVIGATE ∨
          st.setpoint_type = SetpointType.NAVIGATE_GLOBAL ∨
          st.setpoint_type = SetpointType.POSITION) then
        [Msg.tfTarget st.setpoint_position_transformed]
      else []
    -- navigation interpolation
    let st :=
      if st.setpoint_type = SetpointType.NAVIGATE ∨
         st.setpoint_type = SetpointType.NAVIGATE_GLOBAL then
        let pm := { st.position_msg with
          ori := st.setpoint_position_transformed.ori }  -- copy yaw
        let ns_pt := getNavigateSetpoint stamp st.nav_speed st.wait_armed
          st.nav_start st.setpoint_position_transformed.pos
        let pm := { pm with pos := ns_pt.2 }
        let yaw_towards := efAtan2 (EF.sub pm.pos.y (.fin ns_pt.1.pos.y))
                                   (EF.sub pm.pos.x (.fin ns_pt.1.pos.x))
        let pm :=
          if st.setpoint_yaw_type = YawType.TOWARDS then
            { pm with ori := createQuaternionMsgFromRollPitchYaw 0 0 yaw_towards }
          else pm
        { st with nav_start := ns_pt.1, position_msg := pm }
      else st
    let st :=
      if st.setpoint_type = SetpointType.POSITION then
        { st with position_msg := poseToMsg st.setpoint_position_transformed }
      else st
    -- channel selection
    if st.setpoint_type = SetpointType.POSITION ∨
       st.setpoint_type = SetpointType.NAVIGATE ∨
       st.setpoint_type = SetpointType.NAVIGATE_GLOBAL then
      if st.setpoint_yaw_type = YawType.YAW ∨
         st.setpoint_yaw_type = YawType.TOWARDS then
        let pm := { st.position_msg with stamp := stamp }
        ({ st with position_msg := pm }, bmsgs ++ [Msg.posePosition pm])
      else
        let prm := { st.position_raw_msg with
          type_mask := IGNORE_VX + IGNORE_VY + IGNORE_VZ +
                       IGNORE_AFX + IGNORE_AFY + IGNORE_AFZ + IGNORE_YAW
          yaw_rate := st.setpoint_yaw_rate
          position := st.position_msg.pos }
        ({ st with position_raw_msg := prm }, bmsgs ++ [Msg.rawPosition prm])
    else if st.setpoint_type = SetpointType.VELOCITY then
      let prm := { st.position_raw_msg with
        type_mask := IGNORE_PX + IGNORE_PY + IGNORE_PZ +
                     IGNORE_AFX + IGNORE_AFY + IGNORE_AFZ +
                     (if st.setpoint_yaw_type = YawType.YAW
                      then IGNORE_YAW_RATE else IGNORE_YAW)
        velocity := st.setpoint_velocity_transformed.vec
        yaw := getYawOfQuat st.setpoint_position_transformed.ori
        yaw_rate := st.setpoint_yaw_rate }
      ({ st with position_raw_msg := prm }, bmsgs ++ [Msg.rawPosition prm])
    else if st.setpoint_type = SetpointType.ATTITUDE then
      (st, bmsgs ++ [Msg.attitudePose st.setpoint_position_transformed,
                     Msg.thrustCmd stamp st.thrust])
    else if st.setpoint_type = SetpointType.RATES then
      -- mavros rates topics waits for rates in local frame;
      -- use rates in body frame for simplicity
      (st, bmsgs ++ [Msg.rawAttitude stamp p.fcu_frame IGNORE_ATTITUDE
                       st.rates st.thrust])
    else (st, bmsgs)

/-- Service response: `success` flag and `message` string.  A handler that
throws leaves `success` at its default `false` and stores the exception text
in `message`. -/
structure Response where
  success : Bool
  message : String
deriving DecidableEq

/-- The argument tuple of `serve` (lines 482-485), as filled in by the seven
typed service wrappers.  `yaw` and `yaw_rate` are kept as extended floats
because NaN and `+∞` in them encode yaw policies. -/
structure Cmd where
  sp_type : SetpointType
  x : ℝ
  y : ℝ
  z : ℝ
  vx : ℝ
  vy : ℝ
  vz : ℝ
  pitch : ℝ
  roll : ℝ
  yaw : EF
  pitch_rate : ℝ
  roll_rate : ℝ
  yaw_rate : EF
  lat : ℝ
  lon : ℝ
  thrust : ℝ
  speed : ℝ
  frame_id : Frame
  auto_arm : Bool

/-- Source `checkState` (lines 473-480): state freshness and connection. -/
noncomputable def checkState (w : World) (p : Params) : Except String Unit :=
  if w.now - w.state_stamp > p.state_timeout then
    .error "State timeout, check mavros settings"
  else if w.connected = false then
    .error "No connection to FCU, https://clever.copterexpress.com/connection.html"
  else .ok ()

/-- The `try` body of `serve` (lines 489-625).  An `Except.error` is a thrown
`std::runtime_error`: it carries the message together with the node state and
the messages already published at the throw point, because the C++ globals
mutated before the throw stay mutated.  Two source message literals contain an
apostrophe that is elided here ("Cant transform from ...").  The numeric text
that `std::to_string(speed)` appends to the negative-speed message is not
modelled. -/
noncomputable def serveTry (w : World) (p : Params) (c : Cmd) (st0 : NodeState) :
    Except (String × NodeState × List Msg) (NodeState × List Msg) :=
  let stamp := w.now
  if st0.busy then .error ("Busy", st0, [])
  else
  let st := { st0 with busy := true }
  match checkState w p with
  | .error m => .error (m, st, [])
  | .ok _ =>
  if (c.sp_type = SetpointType.NAVIGATE ∨ c.sp_type = SetpointType.NAVIGATE_GLOBAL) ∧
     w.now - w.local_position.stamp > p.local_position_timeout then
    .error ("No local position, check settings", st, [])
  else if (c.sp_type = SetpointType.NAVIGATE ∨ c.sp_type = SetpointType.NAVIGATE_GLOBAL) ∧
     c.speed < 0 then
    .error ("Navigate speed must be positive", st, [])
  else
  let speed := if (c.sp_type = SetpointType.NAVIGATE ∨
                   c.sp_type = SetpointType.NAVIGATE_GLOBAL) ∧ c.speed = 0 then
                 p.default_speed else c.speed
  if (c.sp_type = SetpointType.NAVIGATE ∨ c.sp_type = SetpointType.NAVIGATE_GLOBAL ∨
      c.sp_type = SetpointType.POSITION ∨ c.sp_type = SetpointType.VELOCITY) ∧
     ¬ EF.ieeeEq c.yaw_rate (.fin 0) ∧ c.yaw.isNaN = false then
    .error ("Yaw value should be NaN for setting yaw rate", st, [])
  else if (c.sp_type = SetpointType.NAVIGATE ∨ c.sp_type = SetpointType.NAVIGATE_GLOBAL ∨
      c.sp_type = SetpointType.POSITION ∨ c.sp_type = SetpointType.VELOCITY) ∧
     c.yaw_rate.isNaN = true ∧ c.yaw.isNaN = true then
    .error ("Both yaw and yaw_rate cannot be NaN", st, [])
  else if c.sp_type = SetpointType.NAVIGATE_GLOBAL ∧
     w.now - w.global_stamp > p.global_position_timeout then
    .error ("No global position", st, [])
  else
  -- default frame is local frame; then look up the reference-frame alias
  let frame_id := if c.frame_id = "" then p.local_frame else c.frame_id
  let reference_frame := (p.reference_frames frame_id).getD frame_id
  if (c.sp_type = SetpointType.NAVIGATE ∨ c.sp_type = SetpointType.NAVIGATE_GLOBAL ∨
      c.sp_type = SetpointType.POSITION ∨ c.sp_type = SetpointType.VELOCITY ∨
      c.sp_type = SetpointType.ATTITUDE) ∧
     w.canTransform reference_frame frame_id = false then
    .error ("Cant transform from " ++ frame_id ++ " to " ++ reference_frame, st, [])
  else if (c.sp_type = SetpointType.NAVIGATE ∨ c.sp_type = SetpointType.NAVIGATE_GLOBAL ∨
      c.sp_type = SetpointType.POSITION ∨ c.sp_type = SetpointType.VELOCITY ∨
      c.sp_type = SetpointType.ATTITUDE) ∧
     w.canTransform p.local_frame reference_frame = false then
    .error ("Cant transform from " ++ reference_frame ++ " to " ++ p.local_frame, st, [])
  else
  -- NAVIGATE_GLOBAL: calculate x and y from lat and lon in the request's frame
  match (if c.sp_type = SetpointType.NAVIGATE_GLOBAL then
           match globalToLocal w p c.lat c.lon with
           | .error m => .error m
           | .ok gl =>
             match w.transformPose gl frame_id with
             | .error m => .error m
             | .ok q => .ok (q.pos.x, q.pos.y)
         else .ok (c.x, c.y) : Except String (ℝ × ℝ)) with
  | .error m => .error (m, st, [])
  | .ok xy =>
  -- everything fine - switch setpoint type
  let st := { st with setpoint_type := c.sp_type }
  let st := if c.sp_type = SetpointType.NAVIGATE ∨
               c.sp_type = SetpointType.NAVIGATE_GLOBAL then
              { st with nav_start := w.local_position, nav_speed := speed }
            else st
  -- destination point and/or yaw
  match (if c.sp_type = SetpointType.POSITION ∨ c.sp_type = SetpointType.NAVIGATE ∨
            c.sp_type = SetpointType.NAVIGATE_GLOBAL ∨ c.sp_type = SetpointType.VELOCITY ∨
            c.sp_type = SetpointType.ATTITUDE then
           let yt := if c.yaw.isNaN then YawType.YAW_RATE
                     else if c.yaw.isPosInf then YawType.TOWARDS
                     else YawType.YAW
           let yr := if c.yaw.isNaN then c.yaw_rate else EF.fin 0
           -- the static pose's orientation is only written in the
           -- absolute-yaw branch and otherwise keeps its previous value
           let ori := if c.yaw.isNaN = false ∧ c.yaw.isPosInf = false then
                        createQuaternionMsgFromRollPitchYaw c.roll c.pitch c.yaw.toReal
                      else st.ps_static_ori
           let ps : PoseS := ⟨frame_id, stamp, ⟨xy.1, xy.2, c.z⟩, ori⟩
           let st := { st with setpoint_yaw_type := yt, setpoint_yaw_rate := yr,
                               ps_static_ori := ori }
           match w.transformPose ps reference_frame with
           | .error m => .error (m, st)
           | .ok sp => .ok { st with setpoint_position := sp }
         else .ok st : Except (String × NodeState) NodeState) with
  | .error em => .error (em.1, em.2, [])
  | .ok st =>
  match (if c.sp_type = SetpointType.VELOCITY then
           let vel : Vec3S := ⟨frame_id, stamp, ⟨c.vx, c.vy, c.vz⟩⟩
           match w.transformVec vel reference_frame with
           | .error m => .error (m, st)
           | .ok sv => .ok { st with setpoint_velocity := sv }
         else .ok st : Except (String × NodeState) NodeState) with
  | .error em => .error (em.1, em.2, [])
  | .ok st =>
  let st := if c.sp_type = SetpointType.ATTITUDE ∨ c.sp_type = SetpointType.RATES then
              { st with thrust := c.thrust }
            else st
  let st := if c.sp_type = SetpointType.RATES then
              { st with rates := ⟨c.roll_rate, c.pitch_rate, c.yaw_rate.toReal⟩ }
            else st
  let st := { st with wait_armed := c.auto_arm }
  -- calculate initial transformed messages first, then start the timer
  let pub := publish w p stamp st
  let st := { pub.1 with timer_running := true }
  let msgs := pub.2
  if c.auto_arm then
    match w.offboardAndArmOutcome with
    | some m => .error (m, st, msgs)
    | none => .ok ({ st with wait_armed := false }, msgs)
  else if w.mode ≠ "OFFBOARD" then
    .error ("Copter is not in OFFBOARD mode, use auto_arm?",
            { st with timer_running := false }, msgs)
  else if w.armed = false then
    .error ("Copter is not armed, use auto_arm?",
            { st with timer_running := false }, msgs)
  else .ok (st, msgs)

/-- Source `serve` (lines 482-636): run the command body and catch every
exception, recording its message, clearing `busy` and returning a
non-exceptional response. -/
noncomputable def serve (w : World) (p : Params) (c : Cmd) (st0 : NodeState) :
    Response × NodeState × List Msg :=
  match serveTry w p c st0 with
  | .error e => (⟨false, e.1⟩, { e.2.1 with busy := false }, e.2.2)
  | .ok r => (⟨true, ""⟩, { r.1 with busy := false }, r.2)

/-- One observation of the world taken by an iteration of the `land` wait
loop: the `ros::ok()` guard, and the state and clock after `spinOnce`. -/
structure LandObs where
  ok : Bool
  mode : String
  now : ℝ

/-- Outcome of the wait loop in `land` (lines 687-700). -/
inductive LandWaitOut where
  | landed
  | timedOut
  | shutdown

/-- The wait loop of `land`: polls until mode is AUTO.LAND or the timeout
elapses.  An observation with `ok = false` (or an exhausted trace) is the
`ros::ok()` guard failing: the loop is left without a verdict. -/
noncomputable def landWait (p : Params) (start : ℝ) : List LandObs → LandWaitOut
  | [] => .shutdown
  | o :: rest =>
    if o.ok = false then .shutdown
    else if o.mode = "AUTO.LAND" then .landed
    else if o.now - start > p.land_timeout then .timedOut
    else landWait p start rest

/-- Source `land` (lines 662-708).  The result is `some response` on every
path that returns a value; it is `none` on the path where the wait loop is
left because `ros::ok()` turned false, in which case the C++ function falls
off its end without setting the response (undefined behaviour) and `busy` is
left set.  One source message literal has its apostrophe elided ("Cant call
set_mode service", "Cant send set_mode request"). -/
noncomputable def land (w : World) (p : Params) (st0 : NodeState)
    (trace : List LandObs) : Option Response × NodeState :=
  if st0.busy then (some ⟨false, "Busy"⟩, { st0 with busy := false })
  else
  let st := { st0 with busy := true }
  match checkState w p with
  | .error m => (some ⟨false, m⟩, { st with busy := false })
  | .ok _ =>
  if p.land_only_in_offboard ∧ w.mode ≠ "OFFBOARD" then
    (some ⟨false, "Copter is not in OFFBOARD mode"⟩, { st with busy := false })
  else if w.setModeCallOk = false then
    (some ⟨false, "Cant call set_mode service"⟩, { st with busy := false })
  else if w.setModeSent = false then
    (some ⟨false, "Cant send set_mode request"⟩, { st with busy := false })
  else
    match landWait p w.now trace with
    | .landed => (some ⟨true, ""⟩, { st with busy := false })
    | .timedOut => (some ⟨false, "Land request timed out"⟩, { st with busy := false })
    | .shutdown => (none, st)

/-- Response of the telemetry service; every numeric field defaults to NaN
and is only populated from a fresh source. -/
structure TelemetryRes where
  frame_id : Frame
  x : EF
  y : EF
  z : EF
  lat : EF
  lon : EF
  alt : EF
  vx : EF
  vy : EF
  vz : EF
  pitch : EF
  roll : EF
  yaw : EF
  pitch_rate : EF
  roll_rate : EF
  yaw_rate : EF
  voltage : EF
  cell_voltage : EF
  connected : Bool
  armed : Bool
  mode : String

/-- Source `getTelemetry` (lines 172-257).  An empty request frame is
replaced by the local frame; the response echoes the frame used for the
transforms.  The `waitTransform` call of line 204 only gives the transform
tree time to fill in and its boolean result is discarded by the source, so it
has no effect here.  Transform failures leave the affected fields NaN; the
angular rates are reported as-is whenever velocity is fresh. -/
noncomputable def getTelemetry (w : World) (p : Params) (req_frame_id : Frame) :
    TelemetryRes :=
  let frame_id := if req_frame_id = "" then p.local_frame else req_frame_id
  let res : TelemetryRes :=
    { frame_id := frame_id, x := .nan, y := .nan, z := .nan,
      lat := .nan, lon := .nan, alt := .nan,
      vx := .nan, vy := .nan, vz := .nan,
      pitch := .nan, roll := .nan, yaw := .nan,
      pitch_rate := .nan, roll_rate := .nan, yaw_rate := .nan,
      voltage := .nan, cell_voltage := .nan,
      connected := false, armed := false, mode := "" }
  let res :=
    if w.now - w.state_stamp > p.state_timeout then res
    else { res with connected := w.connected, armed := w.armed, mode := w.mode }
  let res :=
    if w.now - w.local_position.stamp > p.local_position_timeout then res
    else
      match w.transformPose w.local_position frame_id with
      | .ok pose =>
          let ypr := getEulerYPR pose.ori
          { res with x := .fin pose.pos.x, y := .fin pose.pos.y, z := .fin pose.pos.z,
                     yaw := .fin ypr.1, pitch := .fin ypr.2.1, roll := .fin ypr.2.2 }
      | .error _ => res
  let res :=
    if w.now - w.velocity_stamp > p.velocity_timeout then res
    else
      let res :=
        match w.transformVec ⟨w.velocity_frame, w.velocity_stamp, w.velocity_linear⟩
                frame_id with
        | .ok v => { res with vx := .fin v.vec.x, vy := .fin v.vec.y, vz := .fin v.vec.z }
        | .error _ => res
      -- use angular velocities as they are
      { res with yaw_rate := .fin w.velocity_angular.z,
                 pitch_rate := .fin w.velocity_angular.y,
                 roll_rate := .fin w.velocity_angular.x }
  let res :=
    if w.now - w.global_stamp > p.global_position_timeout then res
    else { res with lat := .fin w.global_lat, lon := .fin w.global_lon,
                    alt := .fin w.global_alt }
  let res :=
    if w.now - w.battery_stamp > p.battery_timeout then res
    else
      let res := { res with voltage := .fin w.battery_voltage }
      match w.battery_cells with
      | [] => res
      | cell :: _ => { res with cell_voltage := .fin cell }
  res

/-- `navigate` service handler (line 638). -/
noncomputable def navigate (w : World) (p : Params) (x y z : ℝ) (yaw yaw_rate : EF)
    (speed : ℝ) (frame_id : Frame) (auto_arm : Bool) (st : NodeState) :
    Response × NodeState × List Msg :=
  serve w p
    { sp_type := .NAVIGATE, x := x, y := y, z := z, vx := 0, vy := 0, vz := 0,
      pitch := 0, roll := 0, yaw := yaw, pitch_rate := 0, roll_rate := 0,
      yaw_rate := yaw_rate, lat := 0, lon := 0, thrust := 0, speed := speed,
      frame_id := frame_id, auto_arm := auto_arm } st

/-- `navigate_global` service handler (line 642). -/
noncomputable def navigateGlobal (w : World) (p : Params) (lat lon z : ℝ)
    (yaw yaw_rate : EF) (speed : ℝ) (frame_id : Frame) (auto_arm : Bool)
    (st : NodeState) : Response × NodeState × List Msg :=
  serve w p
    { sp_type := .NAVIGATE_GLOBAL, x := 0, y := 0, z := z, vx := 0, vy := 0, vz := 0,
      pitch := 0, roll := 0, yaw := yaw, pitch_rate := 0, roll_rate := 0,
      yaw_rate := yaw_rate, lat := lat, lon := lon, thrust := 0, speed := speed,
      frame_id := frame_id, auto_arm := auto_arm } st

/-- `set_position` service handler (line 646). -/
noncomputable def setPosition (w : World) (p : Params) (x y z : ℝ) (yaw yaw_rate : EF)
    (frame_id : Frame) (auto_arm : Bool) (st : NodeState) :
    Response × NodeState × List Msg :=
  serve w p
    { sp_type := .POSITION, x := x, y := y, z := z, vx := 0, vy := 0, vz := 0,
      pitch := 0, roll := 0, yaw := yaw, pitch_rate := 0, roll_rate := 0,
      yaw_rate := yaw_rate, lat := 0, lon := 0, thrust := 0, speed := 0,
      frame_id := frame_id, auto_arm := auto_arm } st

/-- `set_velocity` service handler (line 650). -/
noncomputable def setVelocity (w : World) (p : Params) (vx vy vz : ℝ) (yaw yaw_rate : EF)
    (frame_id : Frame) (auto_arm : Bool) (st : NodeState) :
    Response × NodeState × List Msg :=
  serve w p
    { sp_type := .VELOCITY, x := 0, y := 0, z := 0, vx := vx, vy := vy, vz := vz,
      pitch := 0, roll := 0, yaw := yaw, pitch_rate := 0, roll_rate := 0,
      yaw_rate := yaw_rate, lat := 0, lon := 0, thrust := 0, speed := 0,
      frame_id := frame_id, auto_arm := auto_arm } st

/-- `set_attitude` service handler (line 654). -/
noncomputable def setAttitude (w : World) (p : Params) (pitch roll : ℝ) (yaw : EF)
    (thrust : ℝ) (frame_id : Frame) (auto_arm : Bool) (st : NodeState) :
    Response × NodeState × List Msg :=
  serve w p
    { sp_type := .ATTITUDE, x := 0, y := 0, z := 0, vx := 0, vy := 0, vz := 0,
      pitch := pitch, roll := roll, yaw := yaw, pitch_rate := 0, roll_rate := 0,
      yaw_rate := .fin 0, lat := 0, lon := 0, thrust := thrust, speed := 0,
      frame_id := frame_id, auto_arm := auto_arm } st

/-- `set_rates` service handler (line 658): always posts the empty frame id. -/
noncomputable def setRates (w : World) (p : Params) (pitch_rate roll_rate : ℝ)
    (yaw_rate : EF) (thrust : ℝ) (auto_arm : Bool) (st : NodeState) :
    Response × NodeState × List Msg :=
  serve w p
    { sp_type := .RATES, x := 0, y := 0, z := 0, vx := 0, vy := 0, vz := 0,
      pitch := 0, roll := 0, yaw := .fin 0, pitch_rate := pitch_rate,
      roll_rate := roll_rate, yaw_rate := yaw_rate, lat := 0, lon := 0,
      thrust := thrust, speed := 0, frame_id := "", auto_arm := auto_arm } st

/-- The current-setpoint record named by the specification (C4): setpoint
kind, target pose and velocity, navigation start and speed, and yaw policy. -/
def setpointView (st : NodeState) :
    SetpointType × PoseS × Vec3S × PoseS × ℝ × YawType × EF :=
  (st.setpoint_type, st.setpoint_position, st.setpoint_velocity,
   st.nav_start, st.nav_speed, st.setpoint_yaw_type, st.setpoint_yaw_rate)

/-- Interpolation parameter as worded by the specification:
`u = clamp((t − start.timestamp) / (d / speed), 0, 1)`.  This definition
follows the spec text, to be compared against `getNavigateSetpoint`. -/
noncomputable def specNavigateU (t start_stamp d speed : ℝ) : ℝ :=
  max 0 (min ((t - start_stamp) / (d / speed)) 1)

/-- Interpolated point as worded by the specification:
`start + u·(target − start)`, componentwise. -/
def specNavigatePoint (start target : Point3) (u : ℝ) : Point3 :=
  ⟨start.x + u * (target.x - start.x),
   start.y + u * (target.y - start.y),
   start.z + u * (target.z - start.z)⟩

/-- Fixture: pose at the origin of the "map" frame at time 0. -/
def pose0 : PoseS := ⟨"map", 0, ⟨0, 0, 0⟩, Quat.identity⟩

/-- Fixture: zero vector in the "map" frame at time 0. -/
def vec0 : Vec3S := ⟨"map", 0, ⟨0, 0, 0⟩⟩

/-- Fixture world for closed runs: all telemetry stamped at time 0 (fresh),
connected, armed, OFFBOARD, and transform oracles that always succeed
returning their input unchanged. -/
def testWorld : World :=
  { now := 0, state_stamp := 0, connected := true, armed := true,
    mode := "OFFBOARD", local_position := pose0,
    velocity_frame := "map", velocity_stamp := 0,
    velocity_linear := ⟨0, 0, 0⟩, velocity_angular := ⟨0, 0, 0⟩,
    global_stamp := 0, global_lat := 0, global_lon := 0, global_alt := 0,
    battery_stamp := 0, battery_voltage := 0, battery_cells := [],
    canTransform := fun _ _ => true,
    transformPose := fun ps _ => .ok ps,
    transformVec := fun v _ => .ok v,
    lookupTransform := fun _ _ _ => .ok ⟨0, 0, 0⟩,
    geoInverse := fun _ _ _ _ => (0, 0),
    setModeCallOk := true, setModeSent := true,
    offboardAndArmOutcome := none }

/-- Fixture parameters: the defaults read in `main` (lines 719-738). -/
noncomputable def testParams : Params :=
  { local_frame := "map", fcu_frame := "base_link",
    state_timeout := 3, local_position_timeout := 2, velocity_timeout := 2,
    global_position_timeout := 10, battery_timeout := 2,
    transform_timeout := 1 / 2, telemetry_transform_timeout := 1 / 2,
    offboard_timeout := 3, land_timeout := 3, arming_timeout := 4,
    default_speed := 1 / 2, land_only_in_offboard := true,
    reference_frames := fun _ => none,
    target_child_frame := "navigate_target" }

/-- Fixture node state as at process start: no setpoint, idle. -/
def testState : NodeState :=
  { setpoint_type := .NONE, setpoint_yaw_type := .YAW,
    setpoint_yaw_rate := .fin 0, nav_start := pose0, nav_speed := 0,
    setpoint_position := pose0, setpoint_position_transformed := pose0,
    setpoint_velocity := vec0, setpoint_velocity_transformed := vec0,
    thrust := 0, rates := ⟨0, 0, 0⟩, busy := false, wait_armed := false,
    timer_running := false,
    position_msg := ⟨"map", 0, (Point3.mk 0 0 0).toEF, Quat.identity⟩,
    position_raw_msg := ⟨"map", 0, 0, (Point3.mk 0 0 0).toEF, ⟨0, 0, 0⟩, 0, .fin 0⟩,
    ps_static_ori := Quat.zero }

/-- Fixture command: `set_rates(0.1, 0.2, 0.3, thrust 0.4)` as posted by the
`setRates` wrapper. -/
noncomputable def testRatesCmd : Cmd :=
  { sp_type := .RATES, x := 0, y := 0, z := 0, vx := 0, vy := 0, vz := 0,
    pitch := 0, roll := 0, yaw := .fin 0, pitch_rate := 1 / 10,
    roll_rate := 1 / 5, yaw_rate := .fin (3 / 10), lat := 0, lon := 0,
    thrust := 2 / 5, speed := 0, frame_id := "", auto_arm := false }

/-- Fixture: a committed Position setpoint under the YawRate policy. -/
def testStatePosYR : NodeState :=
  { testState with
    setpoint_type := SetpointType.POSITION
    setpoint_yaw_type := YawType.YAW_RATE }

/-- Fixture: the fixture world but with a failing mode/arm sequencing. -/
def testWorldArmFail : World :=
  { testWorld with offboardAndArmOutcome := some "Arming timed out" }

/-- Fixture: a navigate command with `auto_arm` set, finite zero yaw. -/
noncomputable def testNavArmCmd : Cmd :=
  { testRatesCmd with
    sp_type := SetpointType.NAVIGATE
    auto_arm := true
    yaw := .fin 0
    yaw_rate := .fin 0 }

/-- Fixture: the rates command with `auto_arm` set. -/
noncomputable def testRatesArmCmd : Cmd :=
  { testRatesCmd with auto_arm := true }

namespace EF

theorem div_fin_fin (a b : ℝ) (hb : b ≠ 0) : div (.fin a) (.fin b) = .fin (a / b) := by
  simp [div, hb]

theorem div_fin_zero_of_pos (a : ℝ) (ha : 0 < a) : div (.fin a) (.fin 0) = .inf := by
  simp [div, ha, ha.ne']

theorem div_zero_zero : div (.fin 0) (.fin 0) = .nan := by
  simp [div]

theorem stdMin_fin_fin (a b : ℝ) : stdMin (.fin a) (.fin b) = .fin (min a b) := by
  simp only [stdMin, lt]
  split_ifs with h
  · exact congrArg fin (min_eq_right h.le).symm
  · exact congrArg fin (min_eq_left (le_of_not_lt h)).symm

theorem stdMin_nan_fin (b : ℝ) : stdMin .nan (.fin b) = .nan := by
  simp [stdMin, lt]

theorem stdMin_inf_fin (b : ℝ) : stdMin .inf (.fin b) = .fin b := by
  simp [stdMin, lt]

theorem mul_fin_fin (a b : ℝ) : mul (.fin a) (.fin b) = .fin (a * b) := rfl

theorem add_fin_fin (a b : ℝ) : add (.fin a) (.fin b) = .fin (a + b) := rfl

theorem mul_fin_nan (a : ℝ) : mul (.fin a) .nan = .nan := rfl

theorem add_fin_nan (a : ℝ) : add (.fin a) .nan = .nan := rfl

end EF

/-- On a tick with positive distance and speed, `getNavigateSetpoint` leaves
`nav_start` untouched and emits the finite clamped-interpolation point
(shared evaluation lemma). -/
theorem getNavigateSetpoint_eval (t speed : ℝ) (ns : PoseS) (target : Point3)
    (hd : 0 < getDistance ns.pos target) (hs : 0 < speed) :
    getNavigateSetpoint t speed false ns target =
      (ns,
       ⟨.fin (ns.pos.x + (target.x - ns.pos.x) *
          min ((t - ns.stamp) / (getDistance ns.pos target / speed)) 1),
        .fin (ns.pos.y + (target.y - ns.pos.y) *
          min ((t - ns.stamp) / (getDistance ns.pos target / speed)) 1),
        .fin (ns.pos.z + (target.z - ns.pos.z) *
          min ((t - ns.stamp) / (getDistance ns.pos target / speed)) 1)⟩) := by
  have hT : getDistance ns.pos target / speed ≠ 0 := (div_pos hd hs).ne'
  simp only [getNavigateSetpoint, Bool.false_eq_true, if_false,
    EF.div_fin_fin _ _ hs.ne', EF.div_fin_fin _ _ hT,
    EF.stdMin_fin_fin, EF.mul_fin_fin, EF.add_fin_fin]

/-- Auxiliary algebraic fact used to evaluate interpolation endpoints. -/
theorem add_mul_sub_cancel (a b : ℝ) : a + (b - a) * 1 = b := by ring

/-- C2: on every Navigate/NavigateGlobal tick at time `t` with positive
distance `d = ‖target − start‖` and positive speed, the emitted position is
`start + u·(target − start)` with `u = clamp((t − start.timestamp)/(d/speed), 0, 1)`;
at `t = start.timestamp` it equals `start`, and for every
`t ≥ start.timestamp + d/speed` it equals `target`. -/
theorem C2_navigate_interpolation (speed : ℝ) (ns : PoseS) (target : Point3)
    (hd : 0 < getDistance ns.pos target) (hs : 0 < speed) :
    (∀ t, ns.stamp ≤ t →
       (getNavigateSetpoint t speed false ns target).2 =
         (specNavigatePoint ns.pos target
           (specNavigateU t ns.stamp (getDistance ns.pos target) speed)).toEF)
    ∧ (getNavigateSetpoint ns.stamp speed false ns target).2 = ns.pos.toEF
    ∧ (∀ t, ns.stamp + getDistance ns.pos target / speed ≤ t →
         (getNavigateSetpoint t speed false ns target).2 = target.toEF) := by
  have hT : 0 < getDistance ns.pos target / speed := div_pos hd hs
  refine ⟨?_, ?_, ?_⟩
  · intro t ht
    rw [getNavigateSetpoint_eval t speed ns target hd hs]
    have hu : 0 ≤ (t - ns.stamp) / (getDistance ns.pos target / speed) :=
      div_nonneg (sub_nonneg.mpr ht) hT.le
    have hU : specNavigateU t ns.stamp (getDistance ns.pos target) speed =
        min ((t - ns.stamp) / (getDistance ns.pos target / speed)) 1 :=
      max_eq_right (le_min hu zero_le_one)
    rw [hU]
    simp [specNavigatePoint, Point3.toEF, mul_comm]
  · rw [getNavigateSetpoint_eval ns.stamp speed ns target hd hs]
    norm_num [Point3.toEF]
  · intro t ht
    rw [getNavigateSetpoint_eval t speed ns target hd hs]
    have h1 : 1 ≤ (t - ns.stamp) / (getDistance ns.pos target / speed) :=
      (one_le_div hT).mpr (by linarith)
    rw [min_eq_right h1]
    simp [Point3.toEF, add_mul_sub_cancel]

/-- Witness for C2 at a concrete run: start at the origin at time 0, target
`(1,0,0)`, speed 1; the tick at the start stamp emits the start point. -/
theorem C2_navigate_interpolation_witness :
    (0:ℝ) < getDistance ⟨0, 0, 0⟩ ⟨1, 0, 0⟩ ∧ (0:ℝ) < 1 ∧
    (getNavigateSetpoint 0 1 false ⟨"map", 0, ⟨0, 0, 0⟩, Quat.identity⟩
        ⟨1, 0, 0⟩).2 = (Point3.mk 0 0 0).toEF :=
  have hd : (0:ℝ) < getDistance ⟨0, 0, 0⟩ ⟨1, 0, 0⟩ := by
    norm_num [getDistance, hypot3, Real.sqrt_one]
  have hs : (0:ℝ) < 1 := one_pos
  ⟨hd, hs,
   (C2_navigate_interpolation 1 ⟨"map", 0, ⟨0, 0, 0⟩, Quat.identity⟩
      ⟨1, 0, 0⟩ hd hs).2.1⟩

/-- While waiting for arming, a tick behaves like a tick on the re-stamped
start pose (shared lemma: the body of `getNavigateSetpoint` only reads the
rebound `nav_start`). -/
theorem getNavigateSetpoint_wait_armed (t speed : ℝ) (ns : PoseS) (target : Point3) :
    getNavigateSetpoint t speed true ns target =
      getNavigateSetpoint t speed false { ns with stamp := t } target := by
  simp [getNavigateSetpoint]

/-- C5 counterexample: the claim covers every Navigate accepted with
`auto_arm=true`, including a zero-distance one (navigate to the current
position, which `serve` accepts); there each wait_armed tick does rewrite
`nav_start.timestamp` to the tick time, making the elapsed time 0 — but
`time` is also 0, so `passed = 0/0` is NaN (`std::min(NaN, 1.0)` keeps it)
and the emitted coordinates are NaN, not `nav_start`.  The claim's "the
emitted position stays at nav_start" is therefore false on covered cases. -/
theorem C5_wait_armed_counterexample :
    getDistance pose0.pos ⟨0, 0, 0⟩ = 0 ∧
    (getNavigateSetpoint 1 1 true pose0 ⟨0, 0, 0⟩).1 = { pose0 with stamp := 1 } ∧
    (getNavigateSetpoint 1 1 true pose0 ⟨0, 0, 0⟩).2 = ⟨.nan, .nan, .nan⟩ ∧
    (⟨.nan, .nan, .nan⟩ : EFPoint) ≠ pose0.pos.toEF := by
  refine ⟨by norm_num [pose0, getDistance, hypot3, Real.sqrt_zero], ?_, ?_, ?_⟩
  · norm_num [getNavigateSetpoint, pose0]
  · norm_num [getNavigateSetpoint, getDistance, hypot3, Real.sqrt_zero, pose0,
      EF.div, EF.stdMin, EF.lt, EF.mul, EF.add]
  · intro h
    exact EF.noConfusion (congrArg EFPoint.x (h.trans rfl))

/-- C5 amended: while `wait_armed` is set, every publisher tick at time `t`
rewrites `nav_start.timestamp` to `t` (unconditionally); whenever the
distance to the transformed target is positive, the interpolation parameter
stays 0 and the emitted position stays at `nav_start` until arming completes
(the arbiter clears `wait_armed`, line 617); when the distance is zero, the
emitted coordinates are NaN (0/0) on every wait_armed tick instead.
Positive speed is guaranteed by `serve` for every accepted Navigate. -/
theorem C5_wait_armed_amended (speed : ℝ) (ns : PoseS) (target : Point3)
    (hs : 0 < speed) :
    (∀ t, (getNavigateSetpoint t speed true ns target).1 = { ns with stamp := t })
    ∧ (0 < getDistance ns.pos target →
        ∀ t, getNavigateSetpoint t speed true ns target =
          ({ ns with stamp := t }, ns.pos.toEF))
    ∧ (getDistance ns.pos target = 0 →
        ∀ t, (getNavigateSetpoint t speed true ns target).2 =
          ⟨.nan, .nan, .nan⟩) := by
  refine ⟨?_, ?_, ?_⟩
  · intro t
    simp [getNavigateSetpoint]
  · intro hd t
    rw [getNavigateSetpoint_wait_armed]
    have hd' : 0 < getDistance ({ ns with stamp := t } : PoseS).pos target := hd
    rw [getNavigateSetpoint_eval t speed _ target hd' hs]
    norm_num [Point3.toEF]
  · intro hd t
    rw [getNavigateSetpoint_wait_armed]
    have hd' : getDistance ({ ns with stamp := t } : PoseS).pos target = 0 := hd
    simp only [getNavigateSetpoint, Bool.false_eq_true, if_false, hd',
      EF.div_fin_fin _ _ hs.ne', zero_div, sub_self,
      EF.div_zero_zero, EF.stdMin_nan_fin, EF.mul_fin_nan, EF.add_fin_nan]

/-- Witness for the amended C5: a positive-distance wait_armed tick at time 5
re-stamps the start pose to 5 and emits the start position. -/
theorem C5_wait_armed_amended_witness :
    (0:ℝ) < 1 ∧ (0:ℝ) < getDistance pose0.pos ⟨1, 0, 0⟩ ∧
    getNavigateSetpoint 5 1 true pose0 ⟨1, 0, 0⟩ =
      ({ pose0 with stamp := 5 }, pose0.pos.toEF) :=
  have hd : (0:ℝ) < getDistance pose0.pos ⟨1, 0, 0⟩ := by
    norm_num [pose0, getDistance, hypot3, Real.sqrt_one]
  ⟨one_pos, hd,
   (C5_wait_armed_amended 1 pose0 ⟨1, 0, 0⟩ one_pos).2.1 hd 5⟩

/-- C6 counterexample: with distance 0 and tick time equal to
`nav_start.timestamp`, the source computes `passed = 0/0 = NaN`
(`std::min(NaN, 1.0)` keeps the NaN) and the emitted coordinates are NaN,
not the target — the claim fails at `t = nav_start.timestamp`. -/
theorem C6_zero_distance_counterexample :
    getDistance (⟨0, 0, 0⟩ : Point3) ⟨0, 0, 0⟩ = 0 ∧
    (getNavigateSetpoint 0 1 false ⟨"map", 0, ⟨0, 0, 0⟩, Quat.identity⟩
        ⟨0, 0, 0⟩).2 = ⟨.nan, .nan, .nan⟩ ∧
    (⟨.nan, .nan, .nan⟩ : EFPoint) ≠ (Point3.mk 0 0 0).toEF := by
  refine ⟨by norm_num [getDistance, hypot3, Real.sqrt_zero], ?_, ?_⟩
  · norm_num [getNavigateSetpoint, getDistance, hypot3, Real.sqrt_zero,
      EF.div, EF.stdMin, EF.lt, EF.mul, EF.add]
  · intro h
    exact EF.noConfusion (congrArg EFPoint.x (h.trans rfl))

/-- C6 amended: on a zero-distance Navigate setpoint with positive speed the
emitted position equals the target at every tick time strictly after
`nav_start.timestamp` (the quotient is `+∞` and the parameter clamps to 1);
at `t = nav_start.timestamp` itself the parameter is NaN (`0/0`) and the
emitted coordinates are NaN rather than the target. -/
theorem C6_zero_distance_amended (speed : ℝ) (ns : PoseS) (target : Point3)
    (hd : getDistance ns.pos target = 0) (hs : 0 < speed) :
    (∀ t, ns.stamp < t →
       (getNavigateSetpoint t speed false ns target).2 = target.toEF)
    ∧ (getNavigateSetpoint ns.stamp speed false ns target).2 =
        ⟨.nan, .nan, .nan⟩ := by
  constructor
  · intro t ht
    have hpos : 0 < t - ns.stamp := sub_pos.mpr ht
    simp only [getNavigateSetpoint, Bool.false_eq_true, if_false, hd,
      EF.div_fin_fin _ _ hs.ne', zero_div,
      EF.div_fin_zero_of_pos _ hpos, EF.stdMin_inf_fin,
      EF.mul_fin_fin, EF.add_fin_fin]
    simp [Point3.toEF, add_mul_sub_cancel]
  · simp only [getNavigateSetpoint, Bool.false_eq_true, if_false, hd,
      EF.div_fin_fin _ _ hs.ne', zero_div, sub_self,
      EF.div_zero_zero, EF.stdMin_nan_fin, EF.mul_fin_nan, EF.add_fin_nan]

/-- Witness for the amended C6 at a concrete zero-distance run. -/
theorem C6_zero_distance_amended_witness :
    getDistance (⟨0, 0, 0⟩ : Point3) ⟨0, 0, 0⟩ = 0 ∧ (0:ℝ) < 1 ∧
    (getNavigateSetpoint 1 1 false ⟨"map", 0, ⟨0, 0, 0⟩, Quat.identity⟩
        ⟨0, 0, 0⟩).2 = (Point3.mk 0 0 0).toEF :=
  have hd : getDistance (⟨0, 0, 0⟩ : Point3) ⟨0, 0, 0⟩ = 0 := by
    norm_num [getDistance, hypot3, Real.sqrt_zero]
  ⟨hd, one_pos,
   (C6_zero_distance_amended 1 ⟨"map", 0, ⟨0, 0, 0⟩, Quat.identity⟩
      ⟨0, 0, 0⟩ hd one_pos).1 1 one_pos⟩

/-- C1: a command issued while another is executing (`busy == true`) gets
`success=false` with message "Busy", publishes nothing, and leaves the
current-setpoint record (kind, target pose/velocity, nav start/speed, yaw
policy) unchanged — for all seven handlers: the six `serve`-backed commands
and `land`. -/
theorem C1_busy_rejection (w : World) (p : Params) (c : Cmd) (st : NodeState)
    (trace : List LandObs) (h : st.busy = true) :
    (serve w p c st).1 = ⟨false, "Busy"⟩ ∧ (serve w p c st).2.2 = [] ∧
    setpointView (serve w p c st).2.1 = setpointView st ∧
    (land w p st trace).1 = some ⟨false, "Busy"⟩ ∧
    setpointView (land w p st trace).2 = setpointView st := by
  refine ⟨?_, ?_, ?_, ?_, ?_⟩ <;>
    simp [serve, serveTry, land, h, setpointView]

/-- Witness for C1: the fixture state with `busy` set rejects a set_rates
command and a land request with "Busy". -/
theorem C1_busy_rejection_witness :
    ({ testState with busy := true } : NodeState).busy = true ∧
    (serve testWorld testParams testRatesCmd
        { testState with busy := true }).1 = ⟨false, "Busy"⟩ ∧
    (land testWorld testParams { testState with busy := true } []).1 =
      some ⟨false, "Busy"⟩ :=
  ⟨rfl,
   (C1_busy_rejection testWorld testParams testRatesCmd _ [] rfl).1,
   (C1_busy_rejection testWorld testParams testRatesCmd _ [] rfl).2.2.2.1⟩

/-- C7: on every tick of a Navigate/NavigateGlobal/Position setpoint, the
YawRate policy publishes exactly on the raw-position channel — with the
ignore-velocity/acceleration bits and IGNORE_YAW set and `yaw_rate` filled
from the stored rate — and never on the absolute-yaw pose channel; the
AbsoluteYaw and FacingTravelDirection policies publish on the pose channel
and never on the raw-position channel (so no yaw_rate is emitted). -/
theorem C7_yaw_exclusivity (w : World) (p : Params) (t : ℝ) (st : NodeState)
    (hty : st.setpoint_type = SetpointType.NAVIGATE ∨
           st.setpoint_type = SetpointType.NAVIGATE_GLOBAL ∨
           st.setpoint_type = SetpointType.POSITION) :
    (st.setpoint_yaw_type = YawType.YAW_RATE →
       (∃ m, Msg.rawPosition m ∈ (publish w p t st).2 ∧
          m.type_mask = IGNORE_VX + IGNORE_VY + IGNORE_VZ +
            IGNORE_AFX + IGNORE_AFY + IGNORE_AFZ + IGNORE_YAW ∧
          m.yaw_rate = st.setpoint_yaw_rate ∧ m.stamp = t) ∧
       (∀ m ∈ (publish w p t st).2, m.isPosePosition = false))
    ∧ ((st.setpoint_yaw_type = YawType.YAW ∨ st.setpoint_yaw_type = YawType.TOWARDS) →
       (∃ m, Msg.posePosition m ∈ (publish w p t st).2 ∧ m.stamp = t) ∧
       (∀ m ∈ (publish w p t st).2, m.isRawPosition = false)) := by
  rcases hty with h | h | h <;>
    cases hres : w.transformPose { st.setpoint_position with stamp := t } p.local_frame <;>
    by_cases hb : p.target_child_frame = "" <;>
    constructor <;>
    intro hyaw <;>
    first
      | (rcases hyaw with hyaw | hyaw <;>
          constructor <;>
          simp [publish, h, hres, hb, hyaw, Msg.isPosePosition, Msg.isRawPosition])
      | (constructor <;>
          simp [publish, h, hres, hb, hyaw, Msg.isPosePosition, Msg.isRawPosition])

/-- C9: a set_rates command performs no frame resolution and no transform
waits — `serve` accepts it for any transform oracles whatsoever (in
particular an empty tree), given fresh connected state and satisfied
mode/arm prerequisites — and both the warm-start publish and every later
tick emit exactly one raw-attitude message carrying the fcu frame id,
IGNORE_ATTITUDE, the commanded body rates and the commanded thrust. -/
theorem C9_rates_ignore_transforms (w : World) (p : Params) (c : Cmd)
    (st : NodeState)
    (hbusy : st.busy = false)
    (hty : c.sp_type = SetpointType.RATES)
    (hfresh : ¬ (w.now - w.state_stamp > p.state_timeout))
    (hconn : w.connected = true)
    (hmode : w.mode = "OFFBOARD")
    (harmed : w.armed = true)
    (haa : c.auto_arm = false) :
    (serve w p c st).1 = ⟨true, ""⟩ ∧
    (serve w p c st).2.2 =
      [Msg.rawAttitude w.now p.fcu_frame IGNORE_ATTITUDE
        ⟨c.roll_rate, c.pitch_rate, c.yaw_rate.toReal⟩ c.thrust] ∧
    (serve w p c st).2.1.setpoint_type = SetpointType.RATES ∧
    (∀ t, (publish w p t (serve w p c st).2.1).2 =
       [Msg.rawAttitude t p.fcu_frame IGNORE_ATTITUDE
         ⟨c.roll_rate, c.pitch_rate, c.yaw_rate.toReal⟩ c.thrust]) := by
  refine ⟨?_, ?_, ?_, ?_⟩ <;>
    simp [serve, serveTry, checkState, publish, hbusy, hty, hfresh, hconn,
      hmode, harmed, haa]

/-- Witness for C9: the fixture rates command is accepted against a world
whose transform tree is empty (every transform query fails). -/
theorem C9_rates_ignore_transforms_witness :
    ({ testWorld with
        canTransform := fun _ _ => false,
        transformPose := fun _ _ => .error "empty tree",
        transformVec := fun _ _ => .error "empty tree",
        lookupTransform := fun _ _ _ => .error "empty tree" } : World).connected
      = true ∧
    (serve
      { testWorld with
        canTransform := fun _ _ => false,
        transformPose := fun _ _ => .error "empty tree",
        transformVec := fun _ _ => .error "empty tree",
        lookupTransform := fun _ _ _ => .error "empty tree" }
      testParams testRatesCmd testState).1 = ⟨true, ""⟩ :=
  ⟨rfl,
   (C9_rates_ignore_transforms _ testParams testRatesCmd testState rfl rfl
      (by norm_num [testWorld, testParams]) rfl rfl rfl rfl).1⟩


/-- Witness for C7: a Position setpoint with YawRate policy ticks on the
raw-position channel only. -/
theorem C7_yaw_exclusivity_witness :
    testStatePosYR.setpoint_type = SetpointType.POSITION ∧
    (∀ m ∈ (publish testWorld testParams 0 testStatePosYR).2,
       m.isPosePosition = false) :=
  ⟨rfl,
   ((C7_yaw_exclusivity testWorld testParams 0 testStatePosYR
      (Or.inr (Or.inr rfl))).1 rfl).2⟩

/-- Shared walk of `serve` for an accepted command with `auto_arm` whose
mode/arm sequencing throws: the response carries the thrown message with
`success=false`, `busy` is cleared, but the timer started during the call is
left running and `wait_armed` stays set (the catch block of lines 626-631
never stops the timer).  Stated for worlds whose transform oracles succeed
identically. -/
theorem serve_auto_arm_failure (w : World) (p : Params) (c : Cmd)
    (st : NodeState) (msg : String) (tr : Point3)
    (hbusy : st.busy = false)
    (hfresh : ¬ (w.now - w.state_stamp > p.state_timeout))
    (hconn : w.connected = true)
    (hlocal : ¬ (w.now - w.local_position.stamp > p.local_position_timeout))
    (hglob : ¬ (w.now - w.global_stamp > p.global_position_timeout))
    (hspeed : ¬ c.speed < 0)
    (hyr : c.yaw_rate = .fin 0)
    (hyn : c.yaw.isNaN = false)
    (hyp : c.yaw.isPosInf = false)
    (hct : ∀ a b, w.canTransform a b = true)
    (htp : ∀ ps f, w.transformPose ps f = .ok ps)
    (htv : ∀ v f, w.transformVec v f = .ok v)
    (hlk : ∀ a b s, w.lookupTransform a b s = .ok tr)
    (haa : c.auto_arm = true)
    (hout : w.offboardAndArmOutcome = some msg) :
    (serve w p c st).1 = ⟨false, msg⟩ ∧
    (serve w p c st).2.1.busy = false ∧
    (serve w p c st).2.1.timer_running = true ∧
    (serve w p c st).2.1.wait_armed = true := by
  have h1 : EF.ieeeEq (.fin 0) (.fin 0) := rfl
  have h2 : (EF.fin 0).isNaN = false := rfl
  cases hty : c.sp_type <;>
    refine ⟨?_, ?_, ?_, ?_⟩ <;>
      simp [serve, serveTry, checkState, publish, globalToLocal, hty, hbusy,
        hfresh, hconn, hlocal, hglob, hspeed, hyr, hyn, hyp, hct, htp, htv,
        hlk, haa, hout, h1, h2]

/-- C3 counterexample: a navigate command with `auto_arm=true` on the
fixture world whose arming times out is a failing acceptance in which the
publisher timer was started during the call — yet after the handler returns
the timer is still running, falsifying "stops the publisher timer if it was
started during this call". -/
theorem C3_cleanup_counterexample :
    testState.timer_running = false ∧
    (serve testWorldArmFail testParams testNavArmCmd testState).1 =
      ⟨false, "Arming timed out"⟩ ∧
    (serve testWorldArmFail testParams testNavArmCmd testState).2.1.busy
      = false ∧
    (serve testWorldArmFail testParams testNavArmCmd
        testState).2.1.timer_running = true := by
  have h := serve_auto_arm_failure testWorldArmFail testParams testNavArmCmd
    testState "Arming timed out" ⟨0, 0, 0⟩
    rfl (by norm_num [testWorldArmFail, testWorld, testParams]) rfl
    (by norm_num [testWorldArmFail, testWorld, testParams, pose0])
    (by norm_num [testWorldArmFail, testWorld, testParams])
    (by norm_num [testNavArmCmd, testRatesCmd])
    rfl rfl rfl (fun _ _ => rfl) (fun _ _ => rfl) (fun _ _ => rfl)
    (fun _ _ _ => rfl) rfl rfl
  exact ⟨rfl, h.1, h.2.1, h.2.2.1⟩

/-- Shared walk of `serve` for an accepted command with `auto_arm=false` on
a world not in OFFBOARD mode: the explicit prerequisite check at lines
618-620 stops the publisher timer before throwing (transform oracles
assumed to succeed identically). -/
theorem serve_not_offboard_failure (w : World) (p : Params) (c : Cmd)
    (st : NodeState) (tr : Point3)
    (hbusy : st.busy = false)
    (hfresh : ¬ (w.now - w.state_stamp > p.state_timeout))
    (hconn : w.connected = true)
    (hlocal : ¬ (w.now - w.local_position.stamp > p.local_position_timeout))
    (hglob : ¬ (w.now - w.global_stamp > p.global_position_timeout))
    (hspeed : ¬ c.speed < 0)
    (hyr : c.yaw_rate = .fin 0)
    (hyn : c.yaw.isNaN = false)
    (hyp : c.yaw.isPosInf = false)
    (hct : ∀ a b, w.canTransform a b = true)
    (htp : ∀ ps f, w.transformPose ps f = .ok ps)
    (htv : ∀ v f, w.transformVec v f = .ok v)
    (hlk : ∀ a b s, w.lookupTransform a b s = .ok tr)
    (haa : c.auto_arm = false)
    (hmode : w.mode ≠ "OFFBOARD") :
    (serve w p c st).1 =
      ⟨false, "Copter is not in OFFBOARD mode, use auto_arm?"⟩ ∧
    (serve w p c st).2.1.busy = false ∧
    (serve w p c st).2.1.timer_running = false := by
  have h1 : EF.ieeeEq (.fin 0) (.fin 0) := rfl
  have h2 : (EF.fin 0).isNaN = false := rfl
  cases hty : c.sp_type <;>
    refine ⟨?_, ?_, ?_⟩ <;>
      simp [serve, serveTry, checkState, publish, globalToLocal, hty, hbusy,
        hfresh, hconn, hlocal, hglob, hspeed, hyr, hyn, hyp, hct, htp, htv,
        hlk, haa, hmode, h1, h2]

/-- Shared walk of `serve` for an accepted command with `auto_arm=false` on
an OFFBOARD but disarmed world: the explicit prerequisite check at lines
621-623 stops the publisher timer before throwing. -/
theorem serve_not_armed_failure (w : World) (p : Params) (c : Cmd)
    (st : NodeState) (tr : Point3)
    (hbusy : st.busy = false)
    (hfresh : ¬ (w.now - w.state_stamp > p.state_timeout))
    (hconn : w.connected = true)
    (hlocal : ¬ (w.now - w.local_position.stamp > p.local_position_timeout))
    (hglob : ¬ (w.now - w.global_stamp > p.global_position_timeout))
    (hspeed : ¬ c.speed < 0)
    (hyr : c.yaw_rate = .fin 0)
    (hyn : c.yaw.isNaN = false)
    (hyp : c.yaw.isPosInf = false)
    (hct : ∀ a b, w.canTransform a b = true)
    (htp : ∀ ps f, w.transformPose ps f = .ok ps)
    (htv : ∀ v f, w.transformVec v f = .ok v)
    (hlk : ∀ a b s, w.lookupTransform a b s = .ok tr)
    (haa : c.auto_arm = false)
    (hmode : w.mode = "OFFBOARD")
    (harm : w.armed = false) :
    (serve w p c st).1 = ⟨false, "Copter is not armed, use auto_arm?"⟩ ∧
    (serve w p c st).2.1.busy = false ∧
    (serve w p c st).2.1.timer_running = false := by
  have h1 : EF.ieeeEq (.fin 0) (.fin 0) := rfl
  have h2 : (EF.fin 0).isNaN = false := rfl
  cases hty : c.sp_type <;>
    refine ⟨?_, ?_, ?_⟩ <;>
      simp [serve, serveTry, checkState, publish, globalToLocal, hty, hbusy,
        hfresh, hconn, hlocal, hglob, hspeed, hyr, hyn, hyp, hct, htp, htv,
        hlk, haa, hmode, harm, h1, h2]

/-- C3 amended: every failing command acceptance is caught — the response is
non-exceptional with `success=false` and exactly the thrown message, the
messages already published are what was emitted, and `busy` is cleared (the
first two conjuncts, over all calls); the explicit not-OFFBOARD and
not-armed prerequisite failures (`auto_arm=false`) stop the publisher timer
(third and fourth conjuncts); but when `auto_arm=true` and the mode/arm
sequencing fails by timeout or service error, the timer started during the
call is left running and `wait_armed` stays set (fifth conjunct): the catch
block of lines 626-631 never stops the timer. -/
theorem C3_cleanup_amended (w : World) (p : Params) (c : Cmd) (st : NodeState)
    (tr : Point3)
    (hbusy : st.busy = false)
    (hfresh : ¬ (w.now - w.state_stamp > p.state_timeout))
    (hconn : w.connected = true)
    (hlocal : ¬ (w.now - w.local_position.stamp > p.local_position_timeout))
    (hglob : ¬ (w.now - w.global_stamp > p.global_position_timeout))
    (hspeed : ¬ c.speed < 0)
    (hyr : c.yaw_rate = .fin 0)
    (hyn : c.yaw.isNaN = false)
    (hyp : c.yaw.isPosInf = false)
    (hct : ∀ a b, w.canTransform a b = true)
    (htp : ∀ ps f, w.transformPose ps f = .ok ps)
    (htv : ∀ v f, w.transformVec v f = .ok v)
    (hlk : ∀ a b s, w.lookupTransform a b s = .ok tr) :
    (∀ w2 p2 c2 st2 e, serveTry w2 p2 c2 st2 = .error e →
       serve w2 p2 c2 st2 = (⟨false, e.1⟩, { e.2.1 with busy := false }, e.2.2))
    ∧ (∀ w2 p2 c2 st2, ((serve w2 p2 c2 st2).2.1).busy = false)
    ∧ (c.auto_arm = false → w.mode ≠ "OFFBOARD" →
        (serve w p c st).1 =
          ⟨false, "Copter is not in OFFBOARD mode, use auto_arm?"⟩ ∧
        (serve w p c st).2.1.timer_running = false)
    ∧ (c.auto_arm = false → w.mode = "OFFBOARD" → w.armed = false →
        (serve w p c st).1 = ⟨false, "Copter is not armed, use auto_arm?"⟩ ∧
        (serve w p c st).2.1.timer_running = false)
    ∧ (∀ msg, c.auto_arm = true → w.offboardAndArmOutcome = some msg →
        (serve w p c st).1 = ⟨false, msg⟩ ∧
        (serve w p c st).2.1.timer_running = true ∧
        (serve w p c st).2.1.wait_armed = true) := by
  refine ⟨?_, ?_, ?_, ?_, ?_⟩
  · intro w2 p2 c2 st2 e he
    simp [serve, he]
  · intro w2 p2 c2 st2
    cases h2 : serveTry w2 p2 c2 st2 <;> simp [serve, h2]
  · intro haa hmode
    have h := serve_not_offboard_failure w p c st tr hbusy hfresh hconn hlocal
      hglob hspeed hyr hyn hyp hct htp htv hlk haa hmode
    exact ⟨h.1, h.2.2⟩
  · intro haa hmode harm
    have h := serve_not_armed_failure w p c st tr hbusy hfresh hconn hlocal
      hglob hspeed hyr hyn hyp hct htp htv hlk haa hmode harm
    exact ⟨h.1, h.2.2⟩
  · intro msg haa hout
    have h := serve_auto_arm_failure w p c st msg tr hbusy hfresh hconn hlocal
      hglob hspeed hyr hyn hyp hct htp htv hlk haa hout
    exact ⟨h.1, h.2.2.1, h.2.2.2⟩

/-- Witness for the amended C3: the auto_arm navigate run whose arming times
out leaves the timer running, while the same command with `auto_arm=false`
on a MANUAL-mode world is rejected with the timer stopped. -/
theorem C3_cleanup_amended_witness :
    testWorldArmFail.offboardAndArmOutcome = some "Arming timed out" ∧
    testNavArmCmd.auto_arm = true ∧
    (serve testWorldArmFail testParams testNavArmCmd
        testState).2.1.timer_running = true ∧
    (serve { testWorldArmFail with mode := "MANUAL" } testParams
        { testNavArmCmd with auto_arm := false }
        testState).2.1.timer_running = false :=
  ⟨rfl, rfl,
   ((C3_cleanup_amended testWorldArmFail testParams testNavArmCmd testState
      ⟨0, 0, 0⟩
      rfl (by norm_num [testWorldArmFail, testWorld, testParams]) rfl
      (by norm_num [testWorldArmFail, testWorld, testParams, pose0])
      (by norm_num [testWorldArmFail, testWorld, testParams])
      (by norm_num [testNavArmCmd, testRatesCmd])
      rfl rfl rfl (fun _ _ => rfl) (fun _ _ => rfl) (fun _ _ => rfl)
      (fun _ _ _ => rfl)).2.2.2.2 "Arming timed out" rfl rfl).2.1,
   ((C3_cleanup_amended { testWorldArmFail with mode := "MANUAL" } testParams
      { testNavArmCmd with auto_arm := false } testState
      ⟨0, 0, 0⟩
      rfl (by norm_num [testWorldArmFail, testWorld, testParams]) rfl
      (by norm_num [testWorldArmFail, testWorld, testParams, pose0])
      (by norm_num [testWorldArmFail, testWorld, testParams])
      (by norm_num [testNavArmCmd, testRatesCmd])
      rfl rfl rfl (fun _ _ => rfl) (fun _ _ => rfl) (fun _ _ => rfl)
      (fun _ _ _ => rfl)).2.2.1 rfl (by decide)).2⟩

/-- C4: the Land handler's documented contract — always a defined result —
is violated by the source: when `ros::ok()` turns false during the
AUTO.LAND wait loop, the loop is left and the function falls off its end
without producing a response (`none` here; undefined behaviour in C++),
with `busy` left set.  On traces that stay alive, the handler does return
`success=true` on confirmation and the timeout message on deadline expiry,
as the claim states. -/
theorem C4_land_no_result :
    (land testWorld testParams testState [⟨false, "OFFBOARD", 0⟩]).1 = none ∧
    (land testWorld testParams testState [⟨false, "OFFBOARD", 0⟩]).2.busy
      = true ∧
    (land testWorld testParams testState [⟨true, "AUTO.LAND", 0⟩]).1 =
      some ⟨true, ""⟩ ∧
    (land testWorld testParams testState [⟨true, "OFFBOARD", 10⟩]).1 =
      some ⟨false, "Land request timed out"⟩ := by
  have hA : ¬ ((3:ℝ) < 0) := by norm_num
  have hB : (3:ℝ) < 10 := by norm_num
  refine ⟨?_, ?_, ?_, ?_⟩ <;>
    simp [land, checkState, landWait, testWorld, testParams, testState,
      hA, hB]

/-- C8: `globalToLocal` returns a pose stamped at the global fix's
timestamp, in the local frame, at the fcu translation plus the planar
offset `(d·sin α, d·cos α)` with `(d, α)` the WGS84 inverse geodesic from
the current fix to the target (azimuth in degrees, converted to radians),
`z = 0` and identity orientation; when the inverse geodesic of the fix
against itself has distance 0, the planar offset is `(0, 0)`. -/
theorem C8_global_to_local (w : World) (p : Params) (lat lon : ℝ) (tr : Point3)
    (hlk : w.lookupTransform p.local_frame p.fcu_frame w.global_stamp = .ok tr) :
    globalToLocal w p lat lon = .ok
      { frame_id := p.local_frame, stamp := w.global_stamp,
        pos := ⟨tr.x + (w.geoInverse w.global_lat w.global_lon lat lon).1 *
                  Real.sin ((w.geoInverse w.global_lat w.global_lon lat lon).2 *
                    Real.pi / 180),
               tr.y + (w.geoInverse w.global_lat w.global_lon lat lon).1 *
                  Real.cos ((w.geoInverse w.global_lat w.global_lon lat lon).2 *
                    Real.pi / 180),
               0⟩,
        ori := Quat.identity } ∧
    ((w.geoInverse w.global_lat w.global_lon w.global_lat w.global_lon).1 = 0 →
       globalToLocal w p w.global_lat w.global_lon = .ok
         { frame_id := p.local_frame, stamp := w.global_stamp,
           pos := ⟨tr.x, tr.y, 0⟩, ori := Quat.identity }) := by
  constructor
  · simp [globalToLocal, hlk]
  · intro hzero
    simp [globalToLocal, hlk, hzero]

/-- Witness for C8 on the fixture world, whose geodesic oracle returns
distance 0: projecting the current fix onto itself gives offset (0,0). -/
theorem C8_global_to_local_witness :
    testWorld.lookupTransform testParams.local_frame testParams.fcu_frame
        testWorld.global_stamp = .ok ⟨0, 0, 0⟩ ∧
    (testWorld.geoInverse testWorld.global_lat testWorld.global_lon
        testWorld.global_lat testWorld.global_lon).1 = 0 ∧
    globalToLocal testWorld testParams testWorld.global_lat
        testWorld.global_lon = .ok
      { frame_id := testParams.local_frame, stamp := testWorld.global_stamp,
        pos := ⟨0, 0, 0⟩, ori := Quat.identity } :=
  ⟨rfl, rfl,
   (C8_global_to_local testWorld testParams testWorld.global_lat
      testWorld.global_lon ⟨0, 0, 0⟩ rfl).2 rfl⟩

/-- C10: `getTelemetry` substitutes the configured local frame for an empty
request frame, and the response's `frame_id` is exactly the frame handed to
the pose and velocity transforms whose results fill the response. -/
theorem C10_telemetry_frame (w : World) (p : Params) (req : Frame)
    (q : PoseS) (v : Vec3S)
    (hlp : ¬ (w.now - w.local_position.stamp > p.local_position_timeout))
    (hvel : ¬ (w.now - w.velocity_stamp > p.velocity_timeout))
    (hq : w.transformPose w.local_position
        (if req = "" then p.local_frame else req) = .ok q)
    (hv : w.transformVec ⟨w.velocity_frame, w.velocity_stamp, w.velocity_linear⟩
        (if req = "" then p.local_frame else req) = .ok v) :
    (getTelemetry w p req).frame_id = (if req = "" then p.local_frame else req) ∧
    (getTelemetry w p req).x = .fin q.pos.x ∧
    (getTelemetry w p req).y = .fin q.pos.y ∧
    (getTelemetry w p req).z = .fin q.pos.z ∧
    (getTelemetry w p req).vx = .fin v.vec.x ∧
    (getTelemetry w p req).vy = .fin v.vec.y ∧
    (getTelemetry w p req).vz = .fin v.vec.z := by
  refine ⟨?_, ?_, ?_, ?_, ?_, ?_, ?_⟩ <;>
    (simp [getTelemetry, hlp, hvel, hq, hv]; split_ifs <;>
      (cases w.battery_cells <;> rfl))

/-- Witness for C10: an empty request frame against the fixture world is
served in the local frame "map". -/
theorem C10_telemetry_frame_witness :
    testWorld.transformPose testWorld.local_position
        (if "" = "" then testParams.local_frame else "") = .ok pose0 ∧
    (getTelemetry testWorld testParams "").frame_id = "map" :=
  ⟨rfl,
   (C10_telemetry_frame testWorld testParams "" pose0 vec0
      (by norm_num [testWorld, testParams, pose0])
      (by norm_num [testWorld, testParams])
      rfl rfl).1⟩
